import Mathlib

/-!
Verification of the TradeAi stock-analysis backend (`server.py` and the
serverless handlers under `api/`).  The Python source is shallowly embedded:
bytes are `List Nat` (each element `< 256`), strings are Lean `String` or
`List Char`, fallible functions return `Except`, and the asynchronous
fallback loops become structural recursions over the per-key gateway
outcomes.
-/

/-! ## Base64 (embedding of Python `base64.b64encode` / `b64decode`) -/

/-- Standard base64 alphabet, as used by `base64.b64encode`. -/
def b64Alphabet : List Char :=
  "ABCDEFGHIJKLMNOPQRSTUVWXYZabcdefghijklmnopqrstuvwxyz0123456789+/".toList

/-- Character for a 6-bit group (values ≥ 64 never occur for valid input). -/
def sextetToChar (n : Nat) : Char :=
  b64Alphabet.getD n '='

/-- Index of a character in the base64 alphabet (64 for the pad `=`). -/
def charToSextet (c : Char) : Nat :=
  b64Alphabet.indexOf c

/-- Base64-encode a byte list, three bytes at a time, padding with `=`
exactly as `base64.b64encode` does. -/
def b64encode : List Nat → List Char
  | [] => []
  | [a] =>
      [sextetToChar (a / 4), sextetToChar (a % 4 * 16), '=', '=']
  | [a, b] =>
      [sextetToChar (a / 4), sextetToChar (a % 4 * 16 + b / 16),
       sextetToChar (b % 16 * 4), '=']
  | a :: b :: c :: rest =>
      sextetToChar (a / 4) :: sextetToChar (a % 4 * 16 + b / 16) ::
      sextetToChar (b % 16 * 4 + c / 64) :: sextetToChar (c % 64) ::
      b64encode rest

/-- Base64-decode four characters at a time, honouring `=` padding
(embedding of `base64.b64decode` on well-formed input). -/
def b64decode : List Char → List Nat
  | c1 :: c2 :: c3 :: c4 :: rest =>
      let s1 := charToSextet c1
      let s2 := charToSextet c2
      if c3 = '=' then
        [s1 * 4 + s2 / 16]
      else
        let s3 := charToSextet c3
        if c4 = '=' then
          [s1 * 4 + s2 / 16, s2 % 16 * 16 + s3 / 4]
        else
          let s4 := charToSextet c4
          (s1 * 4 + s2 / 16) :: (s2 % 16 * 16 + s3 / 4) ::
          (s3 % 4 * 64 + s4) :: b64decode rest
  | _ => []

/-! ## Image Ingestor (`process_uploaded_image`, server.py lines 553-593) -/

/-- Validation failures of the Image Ingestor (each corresponds to one
`HTTPException(status_code=400, ...)` raise site in `process_uploaded_image`). -/
inductive ImageError where
  | payloadTooLarge
  | invalidMediaType
  | emptyPayload
  deriving DecidableEq, Repr

/-- Embedding of the Python test
`not image_file.content_type or not image_file.content_type.startswith('image/')`:
`none` models `content_type is None`, and an empty string is falsy in Python. -/
def mediaTypeRejected : Option String → Bool
  | none => true
  | some s => s.toList.isEmpty || !("image/".toList.isPrefixOf s.toList)

/-- Embedding of `process_uploaded_image` (server.py lines 553-593): the size
check runs first, then the content-type check, then the emptiness check, and
on success the bytes are base64-encoded. -/
def process_uploaded_image (content : List Nat) (ct : Option String) :
    Except ImageError (List Char) :=
  if content.length > 10 * 1024 * 1024 then
    .error .payloadTooLarge
  else if mediaTypeRejected ct then
    .error .invalidMediaType
  else if content.length = 0 then
    .error .emptyPayload
  else
    .ok (b64encode content)

/-- Validation failures of the serverless upload handler
(api/upload-image.py lines 39-48). -/
inductive UploadError where
  | emptyFile
  | tooLarge
  deriving DecidableEq, Repr

/-- Embedding of the byte validation in `handler.do_POST`
(api/upload-image.py lines 39-48): emptiness is checked before size, and
there is no content-type check. -/
def handler_validate (image_data : List Nat) : Except UploadError (List Char) :=
  if image_data.length = 0 then
    .error .emptyFile
  else if image_data.length > 10 * 1024 * 1024 then
    .error .tooLarge
  else
    .ok (b64encode image_data)


/-! ## Error Classifier (`get_user_friendly_error`, server.py lines 62-81) -/

/-- Embedding of the Python substring test `pat in s`. -/
def pyIn (pat : List Char) : List Char → Bool
  | [] => pat.isEmpty
  | c :: rest => pat.isPrefixOf (c :: rest) || pyIn pat rest

/-- Message returned for 503 / overloaded / unavailable errors. -/
def busyMsg : String :=
  "🔄 The AI service is currently busy. Please try again in a few moments."

/-- Message returned for 401 / unauthorized errors. -/
def authMsg : String :=
  "🔐 Authentication issue with the AI service. Please contact support."

/-- Message returned for 429 / rate-limit errors. -/
def rateMsg : String :=
  "⏳ Too many requests. Please wait a moment and try again."

/-- Message returned for timeout errors. -/
def timeoutMsg : String :=
  "⏱️ The analysis is taking longer than expected. Please try again."

/-- Message returned for network / connection errors. -/
def networkMsg : String :=
  "🌐 Network connectivity issue. Please check your internet connection."

/-- Message returned for file-size errors. -/
def oversizeMsg : String :=
  "📁 The uploaded image is too large. Please use a smaller image file."

/-- Message returned for invalid-image errors. -/
def badFormatMsg : String :=
  "🖼️ Invalid image format. Please upload a valid chart image (PNG, JPG, or GIF)."

/-- Message returned when no pattern matches. -/
def genericMsg : String :=
  "⚠️ Something went wrong during analysis. Please try again or contact support."

/-- Embedding of `get_user_friendly_error` (server.py lines 62-81): the digit
patterns are matched against the raw string, the word patterns against its
lower-cased form, first match wins. -/
def get_user_friendly_error (error_str : List Char) : String :=
  if pyIn "503".toList error_str ||
      pyIn "overloaded".toList (error_str.map Char.toLower) ||
      pyIn "unavailable".toList (error_str.map Char.toLower) then
    busyMsg
  else if pyIn "401".toList error_str ||
      pyIn "unauthorized".toList (error_str.map Char.toLower) then
    authMsg
  else if pyIn "429".toList error_str ||
      pyIn "rate limit".toList (error_str.map Char.toLower) then
    rateMsg
  else if pyIn "timeout".toList (error_str.map Char.toLower) then
    timeoutMsg
  else if pyIn "network".toList (error_str.map Char.toLower) ||
      pyIn "connection".toList (error_str.map Char.toLower) then
    networkMsg
  else if pyIn "file".toList (error_str.map Char.toLower) &&
      pyIn "size".toList (error_str.map Char.toLower) then
    oversizeMsg
  else if pyIn "invalid".toList (error_str.map Char.toLower) &&
      pyIn "image".toList (error_str.map Char.toLower) then
    badFormatMsg
  else
    genericMsg

/-! ## Fallback Executor (server.py lines 210-224, 271-284, 330-343,
379-392 and 398-550) -/

/-- Outcome of one gateway call (`analyze_with_gemini_api`) with one key:
the external service either returns text or raises, whose message we keep. -/
inductive Outcome where
  | success (text : String)
  | failure (err : List Char)
  deriving DecidableEq, Repr

/-- Embedding of the shared per-section fallback loop of
`get_fundamental_analysis`, `get_sentiment_analysis`, `get_technical_analysis`
and `get_recommendations` (e.g. server.py lines 210-224): walk the per-key
outcomes in order, counting gateway calls; on the last key failing, raise the
classified error; when the key list is empty the loop body never runs and the
Python function returns `None`, modelled as `none`. -/
def sectionFallback : List Outcome → Nat × Option (Except String String)
  | [] => (0, none)
  | .success t :: _ => (1, some (.ok t))
  | [.failure e] => (1, some (.error (get_user_friendly_error e)))
  | .failure _ :: o :: rest =>
      let r := sectionFallback (o :: rest)
      (r.1 + 1, r.2)

/-- Message of the unreachable final raise in `analyze_with_fallback`
(server.py lines 547-550). -/
def allBusyMsg : String :=
  "🔄 All AI services are currently busy. Please try again in a few moments."

/-- Embedding of `analyze_with_fallback` (server.py lines 398-550), keeping
its explicit 503 special-case branch: on a non-final failure the code tests
`"503" in error_str or "overloaded" in error_str.lower()` and continues in
both branches; after the loop an unconditional busy error is raised, which is
reachable only when the key list is empty. -/
def analyze_with_fallback_impl : List Outcome → Nat × Except String String
  | [] => (0, .error allBusyMsg)
  | .success t :: _ => (1, .ok t)
  | [.failure e] => (1, .error (get_user_friendly_error e))
  | .failure e :: o :: rest =>
      if pyIn "503".toList e || pyIn "overloaded".toList (e.map Char.toLower) then
        let r := analyze_with_fallback_impl (o :: rest)
        (r.1 + 1, r.2)
      else
        let r := analyze_with_fallback_impl (o :: rest)
        (r.1 + 1, r.2)

/-- Modelled from the spec: the fallback executor that, per §4.4, proceeds
to the next key on failure unconditionally, with no inspection of the error
kind.  Used only to compare with `analyze_with_fallback_impl`. -/
def analyze_with_fallback_uncond : List Outcome → Nat × Except String String
  | [] => (0, .error allBusyMsg)
  | .success t :: _ => (1, .ok t)
  | [.failure e] => (1, .error (get_user_friendly_error e))
  | .failure _ :: o :: rest =>
      let r := analyze_with_fallback_uncond (o :: rest)
      (r.1 + 1, r.2)

/-! ## Analysis Orchestrator (`analyze_stock`, server.py lines 821-899) -/

/-- Response model `StockAnalysisResponse` (server.py lines 45-54). -/
structure StockAnalysisResponse where
  symbol : String
  exchange : String
  chart_image : String
  analysis : String
  fundamental_analysis : String
  sentiment_analysis : String
  technical_analysis : String
  recommendations : String
  timestamp : String
  deriving DecidableEq, Repr

/-- Placeholder substituted for a failed section
(server.py line 863: an f-string over the section name). -/
def sectionPlaceholder (name : String) : String :=
  "⚠️ " ++ name ++ " analysis temporarily unavailable. Please try again."

/-- Embedding of the exception scan at server.py lines 859-863: a gathered
result that is an exception is replaced by the section placeholder. -/
def resolveSection (name : String) : Except String String → String
  | .ok t => t
  | .error _ => sectionPlaceholder name

/-- Embedding of Python `str.upper` (per-character ASCII case mapping),
kept as an explicit char map so that it evaluates by kernel reduction. -/
def pyUpper (s : String) : String :=
  String.mk (s.data.map Char.toUpper)

/-- Legacy combined-analysis text built at server.py lines 870-878, with the
wall-clock string taken as a parameter. -/
def legacyAnalysisText (symbol exchange now : String) : String :=
  "📊 Stock Analysis Report\n\n📌 Symbol: " ++ pyUpper symbol ++
  "\n📅 Timeframe: Multi-Section Analysis\n🔍 Exchange: " ++ pyUpper exchange ++
  "\n\nThis is a comprehensive multi-section analysis. Please use the individual sections (Fundamental, Sentiment, Technical, Recommendations) for detailed insights.\n\nGenerated: " ++ now

/-- Embedding of the `analyze_stock` endpoint (server.py lines 821-899).
Each of the four `Except String String` arguments is the joined outcome of
one section's fallback chain (text, or the classified error detail of the
`HTTPException` it raised); `now` and `ts` stand for the two `datetime.now()`
reads.  Image validation failure aborts the request; otherwise the response
is assembled with failed sections replaced by placeholders and the chart
wrapped in a hard-coded `data:image/png;base64,` URI. -/
def analyze_stock (symbol exchange : String) (content : List Nat)
    (ct : Option String) (fund sent tech recs : Except String String)
    (now ts : String) : Except ImageError StockAnalysisResponse :=
  match process_uploaded_image content ct with
  | .error e => .error e
  | .ok b64 =>
      .ok {
        symbol := pyUpper symbol
        exchange := pyUpper exchange
        chart_image := "data:image/png;base64," ++ String.mk b64
        analysis := legacyAnalysisText symbol exchange now
        fundamental_analysis := resolveSection "Fundamental" fund
        sentiment_analysis := resolveSection "Sentiment" sent
        technical_analysis := resolveSection "Technical" tech
        recommendations := resolveSection "Recommendations" recs
        timestamp := ts
      }

/-! ## Base64 round-trip lemmas -/

theorem charToSextet_sextetToChar : ∀ n < 64, charToSextet (sextetToChar n) = n := by
  decide

theorem sextetToChar_ne_pad : ∀ n < 64, sextetToChar n ≠ '=' := by
  decide

theorem b64_roundtrip : ∀ bs : List Nat, (∀ x ∈ bs, x < 256) →
    b64decode (b64encode bs) = bs
  | [], _ => rfl
  | [a], h => by
      have ha : a < 256 := h a (by simp)
      simp only [b64encode, b64decode, if_true]
      rw [charToSextet_sextetToChar _ (by omega),
          charToSextet_sextetToChar _ (by omega)]
      simp only [List.cons.injEq, and_true]
      omega
  | [a, b], h => by
      have ha : a < 256 := h a (by simp)
      have hb : b < 256 := h b (by simp)
      simp only [b64encode, b64decode]
      rw [if_neg (sextetToChar_ne_pad _ (by omega))]
      simp only [if_true]
      rw [charToSextet_sextetToChar _ (by omega),
          charToSextet_sextetToChar _ (by omega),
          charToSextet_sextetToChar _ (by omega)]
      simp only [List.cons.injEq, and_true]
      omega
  | a :: b :: c :: rest, h => by
      have ha : a < 256 := h a (by simp)
      have hb : b < 256 := h b (by simp)
      have hc : c < 256 := h c (by simp)
      have ih := b64_roundtrip rest (fun x hx => h x (by simp [hx]))
      simp only [b64encode, b64decode]
      rw [if_neg (sextetToChar_ne_pad _ (by omega)),
          if_neg (sextetToChar_ne_pad _ (by omega))]
      rw [charToSextet_sextetToChar _ (by omega),
          charToSextet_sextetToChar _ (by omega),
          charToSextet_sextetToChar _ (by omega),
          charToSextet_sextetToChar _ (by omega)]
      rw [ih]
      simp only [List.cons.injEq, and_true]
      omega

/-! ## Fallback executor lemmas -/

theorem sectionFallback_cons_fail (e : List Char) (o : Outcome) (os : List Outcome) :
    sectionFallback (.failure e :: o :: os) =
      ((sectionFallback (o :: os)).1 + 1, (sectionFallback (o :: os)).2) := rfl

theorem impl_cons_fail (e : List Char) (o : Outcome) (os : List Outcome) :
    analyze_with_fallback_impl (.failure e :: o :: os) =
      ((analyze_with_fallback_impl (o :: os)).1 + 1,
       (analyze_with_fallback_impl (o :: os)).2) := by
  simp only [analyze_with_fallback_impl]
  split <;> rfl

theorem sectionFallback_skip (fails : List (List Char)) (o : Outcome)
    (os : List Outcome) :
    sectionFallback (fails.map Outcome.failure ++ o :: os) =
      ((sectionFallback (o :: os)).1 + fails.length,
       (sectionFallback (o :: os)).2) := by
  induction fails with
  | nil => simp
  | cons f fs ih =>
      have hne : ∃ p ps, fs.map Outcome.failure ++ o :: os = p :: ps := by
        cases hm : fs.map Outcome.failure ++ o :: os
        · exact absurd hm (by simp)
        · exact ⟨_, _, rfl⟩
      obtain ⟨p, ps, hp⟩ := hne
      simp only [List.map_cons, List.cons_append]
      rw [hp, sectionFallback_cons_fail, ← hp, ih]
      simp only [List.length_cons, Prod.mk.injEq, and_true]
      omega

theorem impl_skip (fails : List (List Char)) (o : Outcome) (os : List Outcome) :
    analyze_with_fallback_impl (fails.map Outcome.failure ++ o :: os) =
      ((analyze_with_fallback_impl (o :: os)).1 + fails.length,
       (analyze_with_fallback_impl (o :: os)).2) := by
  induction fails with
  | nil => simp
  | cons f fs ih =>
      have hne : ∃ p ps, fs.map Outcome.failure ++ o :: os = p :: ps := by
        cases hm : fs.map Outcome.failure ++ o :: os
        · exact absurd hm (by simp)
        · exact ⟨_, _, rfl⟩
      obtain ⟨p, ps, hp⟩ := hne
      simp only [List.map_cons, List.cons_append]
      rw [hp, impl_cons_fail, ← hp, ih]
      simp only [List.length_cons, Prod.mk.injEq, and_true]
      omega

/-- C1: the Fallback Executor tries keys in order and short-circuits: with
keys 1..k-1 failing and key k succeeding, exactly k gateway calls happen and
the result is key k output; with all N keys failing, exactly N calls happen
and the raised error is the classification of the last failure.  Stated both
for the shared per-section loop and for `analyze_with_fallback`. -/
theorem fallback_short_circuit_and_last_error :
    (∀ (fails : List (List Char)) (t : String) (rest : List Outcome),
      sectionFallback (fails.map Outcome.failure ++ Outcome.success t :: rest) =
        (fails.length + 1, some (.ok t))) ∧
    (∀ (fails : List (List Char)) (e : List Char),
      sectionFallback (fails.map Outcome.failure ++ [Outcome.failure e]) =
        (fails.length + 1, some (.error (get_user_friendly_error e)))) ∧
    (∀ (fails : List (List Char)) (t : String) (rest : List Outcome),
      analyze_with_fallback_impl
          (fails.map Outcome.failure ++ Outcome.success t :: rest) =
        (fails.length + 1, .ok t)) ∧
    (∀ (fails : List (List Char)) (e : List Char),
      analyze_with_fallback_impl (fails.map Outcome.failure ++ [Outcome.failure e]) =
        (fails.length + 1, .error (get_user_friendly_error e))) := by
  refine ⟨?_, ?_, ?_, ?_⟩
  · intro fails t rest
    rw [sectionFallback_skip]
    simp only [sectionFallback, Prod.mk.injEq, and_true]
    omega
  · intro fails e
    rw [sectionFallback_skip]
    simp only [sectionFallback, Prod.mk.injEq, and_true]
    omega
  · intro fails t rest
    rw [impl_skip]
    simp only [analyze_with_fallback_impl, Prod.mk.injEq, and_true]
    omega
  · intro fails e
    rw [impl_skip]
    simp only [analyze_with_fallback_impl, Prod.mk.injEq, and_true]
    omega

/-- C9: the explicit 503 special-case branch in `analyze_with_fallback`
does not change control flow: the implementation is observationally equal to
the variant that unconditionally proceeds to the next key on any failure. -/
theorem fallback_ignores_error_kind :
    ∀ os : List Outcome,
      analyze_with_fallback_impl os = analyze_with_fallback_uncond os
  | [] => rfl
  | .success _ :: _ => rfl
  | [.failure _] => rfl
  | .failure e :: o :: rest => by
      have ih := fallback_ignores_error_kind (o :: rest)
      simp only [analyze_with_fallback_impl, analyze_with_fallback_uncond, ih]
      split <;> rfl

theorem sectionFallback_cons_isSome : ∀ (o : Outcome) (os : List Outcome),
    (sectionFallback (o :: os)).2.isSome = true
  | .success _, _ => rfl
  | .failure _, [] => rfl
  | .failure e, o :: rest => by
      rw [sectionFallback_cons_fail]
      exact sectionFallback_cons_isSome o rest

/-- C10: on an empty credential chain the per-section loop performs zero
gateway calls and yields neither text nor an error (Python returns `None`),
while the legacy `analyze_with_fallback` raises the generic busy error; a
text-or-error outcome is guaranteed exactly when the chain is non-empty. -/
theorem empty_chain_no_calls_no_raise :
    sectionFallback [] = (0, none) ∧
    analyze_with_fallback_impl [] = (0, .error allBusyMsg) ∧
    (∀ os : List Outcome, os ≠ [] → (sectionFallback os).2.isSome = true) := by
  refine ⟨rfl, rfl, ?_⟩
  intro os h
  cases os with
  | nil => exact absurd rfl h
  | cons o rest => exact sectionFallback_cons_isSome o rest

/-- Witness for `empty_chain_no_calls_no_raise` at the one-key chain. -/
theorem empty_chain_no_calls_no_raise_witness :
    (sectionFallback [Outcome.success "ok"]).2.isSome = true :=
  empty_chain_no_calls_no_raise.2.2 [Outcome.success "ok"] (by simp)

/-- C5: the Image Ingestor fails with `PayloadTooLarge` exactly when the
payload exceeds 10 MiB; a payload of exactly 10 MiB is never rejected for
size. -/
theorem payload_too_large_iff :
    ∀ (content : List Nat) (ct : Option String),
      process_uploaded_image content ct = .error .payloadTooLarge ↔
        content.length > 10 * 1024 * 1024 := by
  intro content ct
  unfold process_uploaded_image
  split_ifs with h1 h2 h3 <;> simp_all

/-- C6 counterexample: with no declared content type the media-type check
DOES reject the payload (Python `not None` is true), contradicting the claim
that an undeclared type passes. -/
theorem missing_content_type_rejected :
    process_uploaded_image [1] none = .error .invalidMediaType := rfl

theorem isPrefixOf_image_nil : ("image/".toList.isPrefixOf ([] : List Char)) = false := by
  decide

/-- C6 amended: `InvalidMediaType` is returned precisely when the size check
passes and the declared content type fails to begin with `image/` — which
includes the case of a missing or empty declared type. -/
theorem invalid_media_type_iff :
    ∀ (content : List Nat) (ct : Option String),
      process_uploaded_image content ct = .error .invalidMediaType ↔
        (content.length ≤ 10 * 1024 * 1024 ∧
          ∀ s, ct = some s → ("image/".toList.isPrefixOf s.toList) = false) := by
  intro content ct
  have hmt : mediaTypeRejected ct = true ↔
      ∀ s, ct = some s → ("image/".toList.isPrefixOf s.toList) = false := by
    cases ct with
    | none => simp [mediaTypeRejected]
    | some s =>
        simp only [mediaTypeRejected, Option.some.injEq, forall_eq']
        constructor
        · intro h
          rcases (Bool.or_eq_true _ _).mp h with he | hn
          · have hnil : s.toList = [] := by simpa using he
            rw [hnil]
            exact isPrefixOf_image_nil
          · simpa using hn
        · intro h
          apply (Bool.or_eq_true _ _).mpr
          right
          simpa using h
  unfold process_uploaded_image
  split_ifs with h1 h2 h3
  · constructor
    · intro h
      exact absurd h (by simp)
    · rintro ⟨hle, -⟩
      exact absurd hle (by omega)
  · constructor
    · intro _
      exact ⟨by omega, hmt.mp h2⟩
    · intro _
      rfl
  · constructor
    · intro h
      exact absurd h (by simp)
    · rintro ⟨-, hp⟩
      exact absurd (hmt.mpr hp) h2
  · constructor
    · intro h
      exact absurd h (by simp)
    · rintro ⟨-, hp⟩
      exact absurd (hmt.mpr hp) h2

/-- C4 counterexample: a 0-byte upload with a declared non-image content type
is rejected by the media-type check, which runs before the emptiness check in
`process_uploaded_image`, so the result is `InvalidMediaType`, not
`EmptyPayload`. -/
theorem zero_byte_nonimage_not_empty_payload :
    process_uploaded_image [] (some "text/plain") = .error .invalidMediaType ∧
    process_uploaded_image [] (some "text/plain") ≠ .error .emptyPayload := by
  have h1 : process_uploaded_image [] (some "text/plain") =
      .error .invalidMediaType := rfl
  refine ⟨h1, ?_⟩
  intro h
  rw [h1] at h
  exact absurd h (by simp)

/-- C4 amended: a 0-byte payload yields `EmptyPayload` provided the declared
content type passes the media-type check (which `process_uploaded_image` runs
first); the serverless upload handler checks emptiness before anything else
and yields its empty-file error for every 0-byte payload. -/
theorem zero_byte_empty_payload (ct : Option String)
    (h : mediaTypeRejected ct = false) :
    process_uploaded_image [] ct = .error .emptyPayload ∧
    handler_validate [] = .error .emptyFile := by
  constructor
  · unfold process_uploaded_image
    rw [if_neg (by simp), if_neg (by simp [h])]
    simp
  · rfl

/-- Witness for `zero_byte_empty_payload` at content type `image/png`. -/
theorem zero_byte_empty_payload_witness :
    mediaTypeRejected (some "image/png") = false ∧
    process_uploaded_image [] (some "image/png") = .error .emptyPayload :=
  ⟨by decide, (zero_byte_empty_payload (some "image/png") (by decide)).1⟩

/-- C3: for every byte sequence of length in (0, 10 MiB] with a declared
content type beginning with `image/`, the Image Ingestor succeeds with the
base64 encoding of the bytes, and decoding that encoding reproduces the
original bytes exactly. -/
theorem ingestor_roundtrip (content : List Nat) (s : String)
    (hpos : 0 < content.length) (hle : content.length ≤ 10 * 1024 * 1024)
    (hbytes : ∀ x ∈ content, x < 256)
    (hct : ("image/".toList.isPrefixOf s.toList) = true) :
    process_uploaded_image content (some s) = .ok (b64encode content) ∧
    b64decode (b64encode content) = content := by
  have hrej : mediaTypeRejected (some s) = false := by
    cases hs : s.toList with
    | nil =>
        rw [hs] at hct
        exact absurd hct (by decide)
    | cons c cs =>
        have hct2 : ("image/".toList.isPrefixOf (c :: cs)) = true := hs ▸ hct
        simp only [mediaTypeRejected]
        rw [hs, hct2]
        rfl
  constructor
  · unfold process_uploaded_image
    rw [if_neg (by omega), if_neg (by simp [hrej]), if_neg (by omega)]
  · exact b64_roundtrip content hbytes

/-- Witness for `ingestor_roundtrip` on a 4-byte PNG-signature payload. -/
theorem ingestor_roundtrip_witness :
    0 < ([137, 80, 78, 71] : List Nat).length ∧
    process_uploaded_image [137, 80, 78, 71] (some "image/png") =
      .ok (b64encode [137, 80, 78, 71]) ∧
    b64decode (b64encode [137, 80, 78, 71]) = [137, 80, 78, 71] := by
  refine ⟨by decide, ?_, ?_⟩
  · exact (ingestor_roundtrip [137, 80, 78, 71] "image/png" (by decide) (by decide)
      (by decide) (by decide)).1
  · exact (ingestor_roundtrip [137, 80, 78, 71] "image/png" (by decide) (by decide)
      (by decide) (by decide)).2

/-- C7: the Error Classifier is a total first-match-wins substring matcher
in the source's fixed priority order (503-group, 401-group, 429-group,
timeout, network, file+size, invalid+image, generic).  In particular every
string containing "503" gets the busy message, lower-cased "overloaded"
also does (case-insensitivity), "429" below the two higher groups gets the
throttle message, and a string matching no pattern gets the generic
message. -/
theorem classifier_fixed_priority (s : List Char) :
    (pyIn "503".toList s = true → get_user_friendly_error s = busyMsg) ∧
    (pyIn "overloaded".toList (s.map Char.toLower) = true →
      get_user_friendly_error s = busyMsg) ∧
    (pyIn "429".toList s = true →
      (pyIn "503".toList s || pyIn "overloaded".toList (s.map Char.toLower) ||
        pyIn "unavailable".toList (s.map Char.toLower)) = false →
      (pyIn "401".toList s ||
        pyIn "unauthorized".toList (s.map Char.toLower)) = false →
      get_user_friendly_error s = rateMsg) ∧
    ((pyIn "503".toList s || pyIn "overloaded".toList (s.map Char.toLower) ||
        pyIn "unavailable".toList (s.map Char.toLower)) = false →
      (pyIn "401".toList s ||
        pyIn "unauthorized".toList (s.map Char.toLower)) = false →
      (pyIn "429".toList s ||
        pyIn "rate limit".toList (s.map Char.toLower)) = false →
      pyIn "timeout".toList (s.map Char.toLower) = false →
      (pyIn "network".toList (s.map Char.toLower) ||
        pyIn "connection".toList (s.map Char.toLower)) = false →
      (pyIn "file".toList (s.map Char.toLower) &&
        pyIn "size".toList (s.map Char.toLower)) = false →
      (pyIn "invalid".toList (s.map Char.toLower) &&
        pyIn "image".toList (s.map Char.toLower)) = false →
      get_user_friendly_error s = genericMsg) := by
  refine ⟨?_, ?_, ?_, ?_⟩
  · intro h
    unfold get_user_friendly_error
    rw [h]
    simp
  · intro h
    unfold get_user_friendly_error
    rw [h]
    simp
  · intro h429 h503 h401
    unfold get_user_friendly_error
    rw [h503, h401, h429]
    simp
  · intro h503 h401 h429 htime hnet hfile hinv
    unfold get_user_friendly_error
    rw [h503, h401, h429, htime, hnet, hfile, hinv]
    simp

/-- Witness for `classifier_fixed_priority` at four concrete inputs. -/
theorem classifier_fixed_priority_witness :
    get_user_friendly_error "http 503".toList = busyMsg ∧
    get_user_friendly_error "OVERLOADED".toList = busyMsg ∧
    get_user_friendly_error "Error 429".toList = rateMsg ∧
    get_user_friendly_error "quux".toList = genericMsg :=
  ⟨(classifier_fixed_priority "http 503".toList).1 (by decide),
   (classifier_fixed_priority "OVERLOADED".toList).2.1 (by decide),
   (classifier_fixed_priority "Error 429".toList).2.2.1 (by decide) (by decide)
     (by decide),
   (classifier_fixed_priority "quux".toList).2.2.2 (by decide) (by decide)
     (by decide) (by decide) (by decide) (by decide) (by decide)⟩

theorem analyze_stock_eq (symbol exchange : String) (content : List Nat)
    (ct : Option String) (fund sent tech recs : Except String String)
    (now ts : String) (b64 : List Char)
    (h : process_uploaded_image content ct = .ok b64) :
    analyze_stock symbol exchange content ct fund sent tech recs now ts =
      .ok { symbol := pyUpper symbol
            exchange := pyUpper exchange
            chart_image := "data:image/png;base64," ++ String.mk b64
            analysis := legacyAnalysisText symbol exchange now
            fundamental_analysis := resolveSection "Fundamental" fund
            sentiment_analysis := resolveSection "Sentiment" sent
            technical_analysis := resolveSection "Technical" tech
            recommendations := resolveSection "Recommendations" recs
            timestamp := ts } := by
  unfold analyze_stock
  rw [h]

/-- C2: whenever the uploaded image passes validation, the analyze-stock
request completes as a success for every combination of section outcomes;
each failed section is replaced by its fixed placeholder text while
successful sections keep their real text — including the case of exactly one
exhausted chain among three successes, and the case of all four failing. -/
theorem orchestrator_absorbs_section_failures (symbol exchange : String)
    (content : List Nat) (ct : Option String) (now ts : String)
    (b64 : List Char) (h : process_uploaded_image content ct = .ok b64) :
    (∀ fund sent tech recs : Except String String, ∃ resp,
      analyze_stock symbol exchange content ct fund sent tech recs now ts =
        .ok resp ∧
      resp.fundamental_analysis = resolveSection "Fundamental" fund ∧
      resp.sentiment_analysis = resolveSection "Sentiment" sent ∧
      resp.technical_analysis = resolveSection "Technical" tech ∧
      resp.recommendations = resolveSection "Recommendations" recs) ∧
    (∀ t1 t2 t3 e, ∃ resp,
      analyze_stock symbol exchange content ct (.ok t1) (.ok t2) (.ok t3)
          (.error e) now ts = .ok resp ∧
      resp.fundamental_analysis = t1 ∧ resp.sentiment_analysis = t2 ∧
      resp.technical_analysis = t3 ∧
      resp.recommendations = sectionPlaceholder "Recommendations") ∧
    (∀ e1 e2 e3 e4, ∃ resp,
      analyze_stock symbol exchange content ct (.error e1) (.error e2)
          (.error e3) (.error e4) now ts = .ok resp ∧
      resp.fundamental_analysis = sectionPlaceholder "Fundamental" ∧
      resp.sentiment_analysis = sectionPlaceholder "Sentiment" ∧
      resp.technical_analysis = sectionPlaceholder "Technical" ∧
      resp.recommendations = sectionPlaceholder "Recommendations") := by
  refine ⟨?_, ?_, ?_⟩
  · intro fund sent tech recs
    exact ⟨_, analyze_stock_eq symbol exchange content ct fund sent tech recs
      now ts b64 h, rfl, rfl, rfl, rfl⟩
  · intro t1 t2 t3 e
    exact ⟨_, analyze_stock_eq symbol exchange content ct (.ok t1) (.ok t2)
      (.ok t3) (.error e) now ts b64 h, rfl, rfl, rfl, rfl⟩
  · intro e1 e2 e3 e4
    exact ⟨_, analyze_stock_eq symbol exchange content ct (.error e1)
      (.error e2) (.error e3) (.error e4) now ts b64 h, rfl, rfl, rfl, rfl⟩

/-- Witness for `orchestrator_absorbs_section_failures`: a valid 2-byte PNG
upload with three succeeding sections and one exhausted chain. -/
theorem orchestrator_absorbs_section_failures_witness :
    ∃ resp,
      analyze_stock "AAPL" "NASDAQ" [137, 80] (some "image/png") (.ok "f1")
          (.ok "s1") (.ok "t1") (.error "boom") "n" "t2" = .ok resp ∧
      resp.fundamental_analysis = "f1" ∧ resp.sentiment_analysis = "s1" ∧
      resp.technical_analysis = "t1" ∧
      resp.recommendations = sectionPlaceholder "Recommendations" :=
  (orchestrator_absorbs_section_failures "AAPL" "NASDAQ" [137, 80]
    (some "image/png") "n" "t2" (b64encode [137, 80]) rfl).2.1 "f1" "s1" "t1" "boom"

/-- C8 counterexample: the chart_image wrapper is NOT inferred from the
uploaded media type — a JPEG upload still gets the hard-coded
`data:image/png;base64,` wrapper (server.py line 884). -/
theorem chart_mime_not_inferred :
    analyze_stock "AAPL" "NASDAQ" [255, 216, 255] (some "image/jpeg")
        (.ok "f") (.ok "s") (.ok "t") (.ok "r") "now" "ts" =
      .ok { symbol := "AAPL", exchange := "NASDAQ",
            chart_image := "data:image/png;base64,/9j/",
            analysis := legacyAnalysisText "AAPL" "NASDAQ" "now",
            fundamental_analysis := "f", sentiment_analysis := "s",
            technical_analysis := "t", recommendations := "r",
            timestamp := "ts" } ∧
    ("data:image/jpeg".toList.isPrefixOf "data:image/png;base64,/9j/".toList) = false := by
  exact ⟨rfl, by decide⟩

/-- C8 amended: the chart_image field is always the fixed
`data:image/png;base64,` wrapper around the base64 encoding of the uploaded
bytes, regardless of the declared media type; in particular for a PNG upload
it begins with `data:image/png;base64,`. -/
theorem chart_image_fixed_png_wrapper (symbol exchange : String)
    (content : List Nat) (ct : Option String)
    (fund sent tech recs : Except String String) (now ts : String)
    (b64 : List Char) (h : process_uploaded_image content ct = .ok b64) :
    ∃ resp,
      analyze_stock symbol exchange content ct fund sent tech recs now ts =
        .ok resp ∧
      resp.chart_image = "data:image/png;base64," ++ String.mk b64 :=
  ⟨_, analyze_stock_eq symbol exchange content ct fund sent tech recs now ts
    b64 h, rfl⟩

/-- Witness for `chart_image_fixed_png_wrapper` at a PNG upload. -/
theorem chart_image_fixed_png_wrapper_witness :
    ∃ resp,
      analyze_stock "AAPL" "NASDAQ" [137, 80] (some "image/png") (.ok "f")
          (.ok "s") (.ok "t") (.ok "r") "n" "t2" = .ok resp ∧
      resp.chart_image = "data:image/png;base64," ++
        String.mk (b64encode [137, 80]) :=
  chart_image_fixed_png_wrapper "AAPL" "NASDAQ" [137, 80] (some "image/png")
    (.ok "f") (.ok "s") (.ok "t") (.ok "r") "n" "t2" (b64encode [137, 80]) rfl
